import Mathlib

/-!
Shallow embedding of the environment-configuration and validation layer of
the repository (src/lib/env-config.ts and src/lib/env-validation-middleware.ts).

The ambient process environment is modelled as a finite association list from
variable names to string values.  JavaScript string truthiness (`""` and
`undefined` are falsy) is modelled by `Env.truthy`; optional chaining such as
`process.env.X?.includes(p)` is modelled by reading the variable with default
`""`, which yields the same boolean in every use site of the source.
-/

set_option maxRecDepth 8000

/-- Boolean test that the first list is a prefix of the second
(model of character-wise prefix comparison). -/
def listPrefixB : List Char → List Char → Bool
  | [], _ => true
  | _ :: _, [] => false
  | a :: as, b :: bs => a == b && listPrefixB as bs

/-- Boolean test that the first list occurs contiguously inside the second. -/
def listInfixB (pat : List Char) (s : List Char) : Bool :=
  match s with
  | [] => pat.isEmpty
  | c :: rest => listPrefixB pat (c :: rest) || listInfixB pat rest

/-- Model of JavaScript `s.startsWith(p)`. -/
def strStartsWith (s p : String) : Bool :=
  listPrefixB p.data s.data

/-- Model of JavaScript `s.endsWith(p)`. -/
def strEndsWith (s p : String) : Bool :=
  listPrefixB p.data.reverse s.data.reverse

/-- Model of JavaScript `s.includes(p)`. -/
def strIncludes (s p : String) : Bool :=
  listInfixB p.data s.data

/-- Model of JavaScript `s.toLowerCase()` (ASCII letters). -/
def jsToLowerCase (s : String) : String :=
  ⟨s.data.map Char.toLower⟩

/-- Model of JavaScript `s.toUpperCase()` (ASCII letters). -/
def jsToUpperCase (s : String) : String :=
  ⟨s.data.map Char.toUpper⟩

/-- Model of JavaScript `s.length` (ASCII inputs). -/
def strLen (s : String) : Nat :=
  s.data.length

/-- Model of JavaScript `s.substring(0, n)`. -/
def strTake (s : String) (n : Nat) : String :=
  ⟨s.data.take n⟩

/-- Model of JavaScript `s.replace("file:", "")` on a string that starts
with `file:` (drops the five prefix characters). -/
def strDrop (s : String) (n : Nat) : String :=
  ⟨s.data.drop n⟩

/-- Joins a list of strings with a separator (model of `Array.join`). -/
def joinWith (sep : String) : List String → String
  | [] => ""
  | [x] => x
  | x :: y :: xs => x ++ sep ++ joinWith sep (y :: xs)

/-- Concatenates a list of lists. -/
def listFlatten {α : Type} : List (List α) → List α
  | [] => []
  | x :: xs => x ++ listFlatten xs

/-- Modelled primitive: success of the platform `new URL(s)` constructor
(not part of this repository).  Approximated as: the string has a nonempty
scheme made of an ASCII letter followed by letters, digits, `+`, `-` or `.`,
terminated by a colon. -/
def jsUrlParses (s : String) : Bool :=
  let pre := s.data.takeWhile (fun c => c != ':')
  decide (pre.length < s.data.length) &&
    (match pre with
     | [] => false
     | c :: rest =>
       c.isAlpha && rest.all (fun d => d.isAlpha || d.isDigit || d == '+' || d == '-' || d == '.'))

/-- Boolean asking whether an `Except` value is a success. -/
def exceptIsOk {ε α : Type} : Except ε α → Bool
  | .ok _ => true
  | .error _ => false

/-- The ambient process environment: an association list of variables. -/
structure Env where
  vars : List (String × String)
deriving DecidableEq, Repr

/-- Looks a variable up (model of `process.env[name]`, `none` = undefined). -/
def Env.get? (e : Env) (name : String) : Option String :=
  (e.vars.find? (fun p => p.1 == name)).map (fun p => p.2)

/-- Variable value with JavaScript-undefined read as the empty string. -/
def Env.getStr (e : Env) (name : String) : String :=
  (e.get? name).getD ""

/-- JavaScript truthiness of `process.env[name]`: present and non-empty. -/
def Env.truthy (e : Env) (name : String) : Bool :=
  (e.get? name).getD "" != ""

/-- All variable names (model of `Object.keys(process.env)`). -/
def Env.names (e : Env) : List String :=
  e.vars.map (fun p => p.1)

/-- The three runtime modes (type `Environment` in env-config.ts). -/
inductive Environment where
  | development
  | production
  | test
deriving DecidableEq, Repr

/-- Supabase section of the configuration record. -/
structure SupabaseConfig where
  url : String
  anonKey : String
  serviceRoleKey : Option String
deriving DecidableEq, Repr

/-- One OAuth provider's credentials. -/
structure OAuthPair where
  clientId : String
  clientSecret : String
deriving DecidableEq, Repr

/-- The optional OAuth providers section. -/
structure OAuthProviders where
  google : Option OAuthPair
  github : Option OAuthPair
deriving DecidableEq, Repr

/-- The validated configuration record (interface `EnvironmentConfig`).
The database provider is kept as the raw string the process supplied,
because the TypeScript enum annotation is erased at runtime. -/
structure EnvironmentConfig where
  nodeEnv : Environment
  databaseUrl : String
  databaseProvider : String
  nextAuthUrl : String
  nextAuthSecret : String
  supabaseConfig : Option SupabaseConfig
  oauthProviders : Option OAuthProviders
deriving DecidableEq, Repr

/-- The database configuration record (interface `DatabaseConfig`). -/
structure DatabaseConfig where
  provider : String
  url : String
  connectionLimit : Option Nat
  ssl : Option Bool
deriving DecidableEq, Repr

/-- `REQUIRED_VARS.base` from env-config.ts. -/
def REQUIRED_VARS_base : List String :=
  ["NODE_ENV", "DATABASE_PROVIDER", "DATABASE_URL", "NEXTAUTH_URL", "NEXTAUTH_SECRET"]

/-- The mode-specific addendum `REQUIRED_VARS[env]`.  The rule table in the
source has entries only for `development` and `production`; indexing it with
`test` yields `undefined` in JavaScript, modelled here as `none`. -/
def REQUIRED_VARS_extra : Environment → Option (List String)
  | .development => some []
  | .production => some ["SUPABASE_URL", "SUPABASE_ANON_KEY"]
  | .test => none

/-- `detectEnvironment` from env-config.ts: case-insensitive match on
`NODE_ENV`, defaulting to development. -/
def detectEnvironment (env : Env) : Environment :=
  if (env.get? "NODE_ENV").map jsToLowerCase = some "development" then .development
  else if (env.get? "NODE_ENV").map jsToLowerCase = some "production" then .production
  else if (env.get? "NODE_ENV").map jsToLowerCase = some "test" then .test
  else .development

/-- Whether `detectEnvironment` takes its default branch and emits the
`Unknown NODE_ENV` console warning. -/
def detectEnvironmentWarns (env : Env) : Bool :=
  if (env.get? "NODE_ENV").map jsToLowerCase = some "development" then false
  else if (env.get? "NODE_ENV").map jsToLowerCase = some "production" then false
  else if (env.get? "NODE_ENV").map jsToLowerCase = some "test" then false
  else true

/-- The required variables of a mode that are absent or empty in the
process environment (`missingVars` in `validateRequiredVariables`, using the
rule-table addendum when it exists). -/
def requiredMissing (mode : Environment) (env : Env) : List String :=
  (REQUIRED_VARS_base ++ (REQUIRED_VARS_extra mode).getD []).filter (fun v => !env.truthy v)

/-- The aggregated missing-variable message of `validateRequiredVariables`. -/
def missingVarsMessage (mode : Environment) (missing : List String) : String :=
  joinWith "\n"
    (("❌ Missing required environment variables for " ++
        (match mode with
         | .development => "development"
         | .production => "production"
         | .test => "test") ++ " environment:") ::
      missing.map (fun v => "  - " ++ v) ++
      ["", "Please check your environment configuration:",
       (match mode with
        | .development => "  - Ensure .env.local file exists with required variables"
        | _ => "  - Ensure production environment variables are set in Vercel"),
       "", "See .env.example for required variable templates."])

/-- The runtime failure produced in test mode by spreading the undefined
rule-table entry `REQUIRED_VARS[\"test\"]` into an array literal. -/
def testModeLookupError : String :=
  "TypeError: REQUIRED_VARS[env] is not iterable (the rule table has no entry for the test environment)"

/-- `validateRequiredVariables` from env-config.ts.  `.ok false` means no
variable was missing; `.ok true` means missing variables were downgraded to a
console warning; `.error` means the aggregated message was thrown.  The
hard-throw condition in the source compares the raw `NODE_ENV` string with
`'production'` and requires `NEXT_PHASE` to be falsy. -/
def validateRequiredVariables (mode : Environment) (env : Env) : Except String Bool :=
  match REQUIRED_VARS_extra mode with
  | none => .error testModeLookupError
  | some extra =>
    let missing := (REQUIRED_VARS_base ++ extra).filter (fun v => !env.truthy v)
    if missing = [] then .ok false
    else if env.getStr "NODE_ENV" = "production" ∧ env.truthy "NEXT_PHASE" = false then
      .error (missingVarsMessage mode missing)
    else .ok true

/-- Error text of `validateDatabaseConfig` for a provider outside the enum. -/
def invalidProviderMsg (provider : String) : String :=
  "❌ Invalid DATABASE_PROVIDER: \"" ++ provider ++ "\". Must be \"sqlite\" or \"postgresql\""

/-- Error text of `validateDatabaseConfig` for a sqlite URL without `file:`. -/
def invalidSqliteUrlMsg (url : String) : String :=
  "❌ SQLite DATABASE_URL must start with \"file:\" but got: \"" ++ url ++ "\""

/-- Error text of `validateDatabaseConfig` for a postgresql URL without
`postgres`. -/
def invalidPostgresUrlMsg (url : String) : String :=
  "❌ PostgreSQL DATABASE_URL must start with \"postgres\" but got: \"" ++ url ++ "\""

/-- `validateDatabaseConfig` from env-config.ts. -/
def validateDatabaseConfig (provider url : String) : Except String Unit :=
  if ¬ (provider = "sqlite" ∨ provider = "postgresql") then
    .error (invalidProviderMsg provider)
  else if provider = "sqlite" ∧ strStartsWith url "file:" = false then
    .error (invalidSqliteUrlMsg url)
  else if provider = "postgresql" ∧ strStartsWith url "postgres" = false then
    .error (invalidPostgresUrlMsg url)
  else .ok ()

/-- `OAUTH_PROVIDER_PAIRS` from env-config.ts. -/
def OAUTH_PROVIDER_PAIRS : List (String × (String × String)) :=
  [("google", ("GOOGLE_CLIENT_ID", "GOOGLE_CLIENT_SECRET")),
   ("github", ("GITHUB_CLIENT_ID", "GITHUB_CLIENT_SECRET"))]

/-- The per-provider error entries collected by the loop in
`validateOAuthProviders` (the informational console log of fully absent
pairs has no observable effect and is not modelled). -/
def oauthPairErrors (env : Env) : List String :=
  listFlatten (OAUTH_PROVIDER_PAIRS.map (fun p =>
    if env.truthy p.2.1 = true ∧ env.truthy p.2.2 = false then
      [jsToUpperCase p.1 ++ " OAuth: " ++ p.2.1 ++ " is set but " ++ p.2.2 ++ " is missing"]
    else if env.truthy p.2.1 = false ∧ env.truthy p.2.2 = true then
      [jsToUpperCase p.1 ++ " OAuth: " ++ p.2.2 ++ " is set but " ++ p.2.1 ++ " is missing"]
    else []))

/-- The aggregated OAuth error message thrown by `validateOAuthProviders`. -/
def oauthErrorMessage (errors : List String) : String :=
  joinWith "\n"
    ("❌ Invalid OAuth provider configuration:" ::
      errors.map (fun e => "  - " ++ e) ++
      ["", "Each OAuth provider requires both client ID and client secret.",
       "Either provide both values or remove both to disable the provider.",
       "", "See .env.example for proper OAuth configuration examples."])

/-- `validateOAuthProviders` from env-config.ts. -/
def validateOAuthProviders (env : Env) : Except String Unit :=
  if oauthPairErrors env = [] then .ok ()
  else .error (oauthErrorMessage (oauthPairErrors env))

/-- `createDatabaseConfig` from env-config.ts.  The source reads
`DATABASE_URL` through a non-null assertion; an absent value is modelled as
the empty string, which fails the same prefix validation. -/
def createDatabaseConfig (mode : Environment) (env : Env) : Except String DatabaseConfig :=
  let provider := env.getStr "DATABASE_PROVIDER"
  let url := env.getStr "DATABASE_URL"
  match validateDatabaseConfig provider url with
  | .error e => .error e
  | .ok _ =>
    let base : DatabaseConfig := { provider := provider, url := url, connectionLimit := none, ssl := none }
    .ok (if mode = Environment.production ∧ provider = "postgresql" then
           { base with connectionLimit := some 10, ssl := some true }
         else base)

/-- `loadEnvironmentConfig` from env-config.ts. -/
def loadEnvironmentConfig (env : Env) : Except String EnvironmentConfig :=
  let mode := detectEnvironment env
  match validateRequiredVariables mode env with
  | .error e => .error e
  | .ok _ =>
    match validateOAuthProviders env with
    | .error e => .error e
    | .ok _ =>
      match createDatabaseConfig mode env with
      | .error e => .error e
      | .ok dbConfig =>
        let google :=
          if env.truthy "GOOGLE_CLIENT_ID" = true ∧ env.truthy "GOOGLE_CLIENT_SECRET" = true then
            some { clientId := env.getStr "GOOGLE_CLIENT_ID",
                   clientSecret := env.getStr "GOOGLE_CLIENT_SECRET" : OAuthPair }
          else none
        let github :=
          if env.truthy "GITHUB_CLIENT_ID" = true ∧ env.truthy "GITHUB_CLIENT_SECRET" = true then
            some { clientId := env.getStr "GITHUB_CLIENT_ID",
                   clientSecret := env.getStr "GITHUB_CLIENT_SECRET" : OAuthPair }
          else none
        .ok { nodeEnv := mode
            , databaseUrl := dbConfig.url
            , databaseProvider := dbConfig.provider
            , nextAuthUrl := env.getStr "NEXTAUTH_URL"
            , nextAuthSecret := env.getStr "NEXTAUTH_SECRET"
            , supabaseConfig :=
                if mode = Environment.production ∧ env.truthy "SUPABASE_URL" = true then
                  some { url := env.getStr "SUPABASE_URL"
                       , anonKey := env.getStr "SUPABASE_ANON_KEY"
                       , serviceRoleKey := env.get? "SUPABASE_SERVICE_ROLE_KEY" }
                else none
            , oauthProviders :=
                if google = none ∧ github = none then none
                else some { google := google, github := github } }

/-- `getEnvironmentConfig` from env-config.ts: the process-wide singleton,
modelled with the cache cell passed and returned explicitly. -/
def getEnvironmentConfig (cache : Option EnvironmentConfig) (env : Env) :
    Except String (EnvironmentConfig × Option EnvironmentConfig) :=
  match cache with
  | some c => .ok (c, some c)
  | none =>
    match loadEnvironmentConfig env with
    | .ok c => .ok (c, some c)
    | .error e => .error e

/-- A validation outcome of the middleware (`validationStatus` shape). -/
structure ValidationResult where
  isValid : Bool
  errors : List String
  warnings : List String
deriving DecidableEq, Repr

/-- The module-level mutable state of env-validation-middleware.ts together
with the configuration singleton of env-config.ts. -/
structure MState where
  validationStatus : ValidationResult
  config : Option EnvironmentConfig
  hasLoggedWarnings : Bool
deriving DecidableEq, Repr

/-- The state of a freshly started process. -/
def initMState : MState :=
  { validationStatus := { isValid := false, errors := [], warnings := [] }
  , config := none
  , hasLoggedWarnings := false }

/-- The development-secret literal recognised by the base production check. -/
def devSecretLiteral : String :=
  "MrbVExKCIM00jDrY37PLq4UFXoYqn4PllXx45L26jyg="

/-- Base production-mode error push of `validateEnvironmentVariables`
(development secret reused in production). -/
def baseProdErrors (env : Env) : List String :=
  if env.truthy "NEXTAUTH_SECRET" = true ∧
     (strIncludes (env.getStr "NEXTAUTH_SECRET") "development" ||
      env.getStr "NEXTAUTH_SECRET" == devSecretLiteral) = true then
    ["Using development NEXTAUTH_SECRET in production. Generate a new secure secret for production."]
  else []

/-- Base production-mode warning push of `validateEnvironmentVariables`. -/
def baseProdWarnings (env : Env) : List String :=
  if env.getStr "DATABASE_PROVIDER" = "sqlite" then
    ["Using SQLite in production is not recommended. Consider using PostgreSQL for better performance and scalability."]
  else []

/-- Base development-mode warning push of `validateEnvironmentVariables`. -/
def baseDevWarnings (env : Env) : List String :=
  if env.truthy "SUPABASE_SERVICE_ROLE_KEY" = true then
    ["SUPABASE_SERVICE_ROLE_KEY is set in development environment but only needed in production."]
  else []

/-- Database-URL format errors of `validateEnvironmentVariables`. -/
def baseDbFormatErrors (env : Env) : List String :=
  if env.truthy "DATABASE_URL" = true ∧ env.truthy "DATABASE_PROVIDER" = true then
    if env.getStr "DATABASE_PROVIDER" = "sqlite" ∧
       strStartsWith (env.getStr "DATABASE_URL") "file:" = false then
      ["Invalid SQLite DATABASE_URL: \"" ++ env.getStr "DATABASE_URL" ++ "\". Must start with \"file:\"."]
    else if env.getStr "DATABASE_PROVIDER" = "postgresql" ∧
            strStartsWith (env.getStr "DATABASE_URL") "postgres" = false then
      ["Invalid PostgreSQL DATABASE_URL: \"" ++ env.getStr "DATABASE_URL" ++ "\". Must start with \"postgres\"."]
    else []
  else []

/-- NEXTAUTH_URL parse error of `validateEnvironmentVariables`. -/
def baseNextAuthUrlErrors (env : Env) : List String :=
  if env.truthy "NEXTAUTH_URL" = true ∧ jsUrlParses (env.getStr "NEXTAUTH_URL") = false then
    ["Invalid NEXTAUTH_URL: \"" ++ env.getStr "NEXTAUTH_URL" ++ "\". Must be a valid URL."]
  else []

/-- The body of `validateEnvironmentVariables` past the cache guard: loads
the configuration (catching its exception) and runs the base checks.
Returns the computed status together with the configuration cache. -/
def computeValidation (cache : Option EnvironmentConfig) (env : Env) :
    ValidationResult × Option EnvironmentConfig :=
  match getEnvironmentConfig cache env with
  | .error e => ({ isValid := false, errors := [e], warnings := [] }, cache)
  | .ok r =>
    let mode := detectEnvironment env
    let errors :=
      (if mode = Environment.production then baseProdErrors env else []) ++
      baseDbFormatErrors env ++ baseNextAuthUrlErrors env
    let warnings :=
      (if mode = Environment.production then baseProdWarnings env else []) ++
      (if mode = Environment.development then baseDevWarnings env else [])
    ({ isValid := errors.isEmpty, errors := errors, warnings := warnings }, r.2)

/-- `validateEnvironmentVariables` from env-validation-middleware.ts: the
cached result is returned whenever it is valid or carries errors, otherwise
the status is recomputed and stored. -/
def validateEnvironmentVariablesRun (st : MState) (env : Env) : ValidationResult × MState :=
  if (st.validationStatus.isValid || !st.validationStatus.errors.isEmpty) = true then
    (st.validationStatus, st)
  else
    let r := computeValidation st.config env
    (r.1, { st with validationStatus := r.1, config := r.2 })

/-- Warning pushes of `validateDevelopmentConfiguration`
(this function pushes no errors in the source). -/
def devCheckWarnings (env : Env) : List String :=
  (if strIncludes (env.getStr "DATABASE_URL") "supabase.co" = true then
     ["Using Supabase database URL in development. Consider using SQLite for faster local development and offline capability."]
   else []) ++
  (if env.getStr "DATABASE_PROVIDER" = "postgresql" ∧
      strIncludes (env.getStr "DATABASE_URL") "localhost" = false then
     ["Using remote PostgreSQL in development. Consider SQLite for faster local development."]
   else []) ++
  (if env.truthy "SUPABASE_URL" = true ∧ env.getStr "DATABASE_PROVIDER" = "sqlite" then
     ["SUPABASE_URL is configured but DATABASE_PROVIDER is sqlite. This configuration may be unnecessary for development."]
   else []) ++
  (if strStartsWith (env.getStr "DATABASE_URL") "file:" = false ∧
      env.getStr "DATABASE_PROVIDER" = "sqlite" then
     ["DATABASE_PROVIDER is sqlite but DATABASE_URL doesn't start with \"file:\". Check your .env.local configuration."]
   else []) ++
  (if strIncludes (env.getStr "NEXTAUTH_URL") "localhost:3000" = true ∧
      (env.truthy "GOOGLE_CLIENT_ID" || env.truthy "GITHUB_CLIENT_ID") = true then
     ["OAuth providers configured with localhost. Ensure OAuth callback URLs are set to http://localhost:3000/api/auth/callback/[provider]."]
   else []) ++
  (if env.truthy "NEXTAUTH_SECRET" = true ∧ 50 < strLen (env.getStr "NEXTAUTH_SECRET") then
     ["NEXTAUTH_SECRET appears to be a production-grade secret. You can use a simpler secret for development."]
   else []) ++
  (if strStartsWith (env.getStr "DATABASE_URL") "file:" = true then
     ["SQLite database will be created at: " ++ strDrop (env.getStr "DATABASE_URL") 5 ++
      ". Run database migrations if this is a new setup."]
   else [])

/-- `validateDevelopmentConfiguration` from env-validation-middleware.ts,
mutating the validation lists in place (modelled by returning the updated
record; `isValid` is never touched). -/
def validateDevelopmentConfiguration (env : Env) (v : ValidationResult) : ValidationResult :=
  { v with warnings := v.warnings ++ devCheckWarnings env }

/-- The production error of a `file:` database URL (used by claim C1). -/
def sqliteProdErrorMsg : String :=
  "Using SQLite (file: URL) in production is not recommended. Use PostgreSQL with Supabase for production deployments."

/-- Error pushes of `validateProductionConfiguration`, in source order. -/
def prodCheckErrors (env : Env) : List String :=
  (if strStartsWith (env.getStr "DATABASE_URL") "file:" = true then [sqliteProdErrorMsg] else []) ++
  (if strIncludes (env.getStr "NEXTAUTH_URL") "localhost" = true then
     ["NEXTAUTH_URL contains localhost in production. Use your actual production domain (e.g., https://yourdomain.com)."]
   else []) ++
  (if env.getStr "NEXTAUTH_SECRET" = "development-secret" ∨
      strIncludes (env.getStr "NEXTAUTH_SECRET") "dev" = true ∨
      strIncludes (env.getStr "NEXTAUTH_SECRET") "test" = true then
     ["Using development NEXTAUTH_SECRET in production. Generate a secure secret with: openssl rand -base64 32"]
   else []) ++
  (if env.getStr "DATABASE_PROVIDER" = "postgresql" ∧
      strIncludes (env.getStr "DATABASE_URL") "supabase.co" = true then
     (if env.truthy "SUPABASE_URL" = false then
        ["Using Supabase database but SUPABASE_URL is not configured. This is required for Supabase integration."]
      else []) ++
     (if env.truthy "SUPABASE_ANON_KEY" = false then
        ["Using Supabase database but SUPABASE_ANON_KEY is not configured. This is required for Supabase client operations."]
      else [])
   else []) ++
  (if (env.truthy "GOOGLE_CLIENT_ID" || env.truthy "GITHUB_CLIENT_ID") = true ∧
      strIncludes (env.getStr "NEXTAUTH_URL") "localhost" = true then
     ["OAuth providers configured but NEXTAUTH_URL points to localhost. Update OAuth callback URLs to production domain."]
   else []) ++
  (if env.truthy "NEXTAUTH_SECRET" = true ∧ strLen (env.getStr "NEXTAUTH_SECRET") < 32 then
     ["NEXTAUTH_SECRET is too short for production. Use at least 32 characters for security."]
   else []) ++
  (if env.truthy "NEXTAUTH_URL" = true ∧
      strStartsWith (env.getStr "NEXTAUTH_URL") "https://" = false then
     ["NEXTAUTH_URL should use HTTPS in production for security."]
   else [])

/-- Warning pushes of `validateProductionConfiguration`, in source order. -/
def prodCheckWarnings (env : Env) : List String :=
  (if env.truthy "SUPABASE_URL" = false ∧ env.getStr "DATABASE_PROVIDER" = "postgresql" then
     ["Using PostgreSQL without Supabase configuration. Ensure your PostgreSQL setup is production-ready with proper connection pooling and SSL."]
   else []) ++
  (if env.getStr "NODE_ENV" ≠ "production" then
     ["NODE_ENV is \"" ++ env.getStr "NODE_ENV" ++ "\" but should be \"production\" for production deployments."]
   else [])

/-- `validateProductionConfiguration` from env-validation-middleware.ts. -/
def validateProductionConfiguration (env : Env) (v : ValidationResult) : ValidationResult :=
  { v with errors := v.errors ++ prodCheckErrors env,
           warnings := v.warnings ++ prodCheckWarnings env }

/-- Database provider/URL consistency errors of
`validateCrossEnvironmentConsistency`. -/
def dbConsistencyErrors (env : Env) : List String :=
  if env.truthy "DATABASE_PROVIDER" = true ∧ env.truthy "DATABASE_URL" = true then
    (if env.getStr "DATABASE_PROVIDER" = "sqlite" ∧
        strStartsWith (env.getStr "DATABASE_URL") "file:" = false then
       ["DATABASE_PROVIDER is \"sqlite\" but DATABASE_URL doesn't start with \"file:\". Got: " ++
        env.getStr "DATABASE_URL"]
     else []) ++
    (if env.getStr "DATABASE_PROVIDER" = "postgresql" ∧
        strStartsWith (env.getStr "DATABASE_URL") "postgres" = false then
       ["DATABASE_PROVIDER is \"postgresql\" but DATABASE_URL doesn't start with \"postgres\". Got: " ++
        strTake (env.getStr "DATABASE_URL") 20 ++ "..."]
     else [])
  else []

/-- The Google-incomplete message of the cross-environment OAuth check. -/
def googleIncompleteMsg : String :=
  "Google OAuth configuration incomplete. Both GOOGLE_CLIENT_ID and GOOGLE_CLIENT_SECRET are required."

/-- The GitHub-incomplete message of the cross-environment OAuth check. -/
def githubIncompleteMsg : String :=
  "GitHub OAuth configuration incomplete. Both GITHUB_CLIENT_ID and GITHUB_CLIENT_SECRET are required."

/-- OAuth completeness errors of `validateCrossEnvironmentConsistency`. -/
def oauthConsistencyErrors (env : Env) : List String :=
  (if (env.truthy "GOOGLE_CLIENT_ID" && !env.truthy "GOOGLE_CLIENT_SECRET") ||
      (!env.truthy "GOOGLE_CLIENT_ID" && env.truthy "GOOGLE_CLIENT_SECRET") then
     [googleIncompleteMsg]
   else []) ++
  (if (env.truthy "GITHUB_CLIENT_ID" && !env.truthy "GITHUB_CLIENT_SECRET") ||
      (!env.truthy "GITHUB_CLIENT_ID" && env.truthy "GITHUB_CLIENT_SECRET") then
     [githubIncompleteMsg]
   else [])

/-- The allow-list of known secret-bearing variable names. -/
def knownSecretVarNames : List String :=
  ["NEXTAUTH_SECRET", "SUPABASE_ANON_KEY", "SUPABASE_SERVICE_ROLE_KEY",
   "GOOGLE_CLIENT_SECRET", "GITHUB_CLIENT_SECRET"]

/-- Suspicious-name warning of `validateCrossEnvironmentConsistency`. -/
def suspiciousVarWarnings (env : Env) : List String :=
  let suspicious := env.names.filter (fun name =>
    strIncludes name "_" &&
    (strIncludes (jsToLowerCase name) "secret" || strIncludes (jsToLowerCase name) "key") &&
    !(knownSecretVarNames.contains name))
  if suspicious.isEmpty then []
  else
    ["Found additional environment variables that may contain secrets: " ++
     joinWith ", " suspicious ++ ". Ensure these are properly configured."]

/-- The typo→canonical rule table of `validateCrossEnvironmentConsistency`. -/
def commonTypos : List (String × List String) :=
  [("DATABASE_URL", ["DATABSE_URL", "DATABASE_URI", "DB_URL"]),
   ("NEXTAUTH_SECRET", ["NEXT_AUTH_SECRET", "NEXTAUTH_KEY"]),
   ("NEXTAUTH_URL", ["NEXT_AUTH_URL", "NEXTAUTH_URI"]),
   ("SUPABASE_URL", ["SUPABASE_URI", "SUPA_BASE_URL"])]

/-- Typo errors of `validateCrossEnvironmentConsistency`. -/
def typoErrors (env : Env) : List String :=
  listFlatten (commonTypos.map (fun p =>
    (p.2.filter (fun t => env.truthy t)).map (fun t =>
      "Found \"" ++ t ++ "\" but expected \"" ++ p.1 ++ "\". Check for typos in environment variable names.")))

/-- `validateCrossEnvironmentConsistency` from env-validation-middleware.ts
(its mode parameter is unused in the source and omitted here). -/
def validateCrossEnvironmentConsistency (env : Env) (v : ValidationResult) : ValidationResult :=
  { v with errors := v.errors ++ dbConsistencyErrors env ++ oauthConsistencyErrors env ++ typoErrors env,
           warnings := v.warnings ++ suspiciousVarWarnings env }

/-- `validateEnvironmentConfiguration` from env-validation-middleware.ts:
the base pass followed by the mode-specific and cross-environment checks,
which mutate the (aliased) cached status. -/
def validateEnvironmentConfiguration (st : MState) (env : Env) : ValidationResult × MState :=
  let base := validateEnvironmentVariablesRun st env
  let mode := detectEnvironment env
  let v1 := if mode = Environment.development then validateDevelopmentConfiguration env base.1 else base.1
  let v2 := if mode = Environment.production then validateProductionConfiguration env v1 else v1
  let v3 := validateCrossEnvironmentConsistency env v2
  (v3, { base.2 with validationStatus := v3 })

/-- `shouldSkipValidation` from env-validation-middleware.ts. -/
def shouldSkipValidation (pathname : String) : Bool :=
  let staticExtensions := [".js", ".css", ".png", ".jpg", ".jpeg", ".gif", ".svg", ".ico",
                           ".woff", ".woff2", ".ttf", ".eot"]
  let skipPatterns := ["/_next/", "/api/", "/favicon.ico", "/robots.txt", "/sitemap.xml", "/.well-known/"]
  staticExtensions.any (fun ext => strEndsWith pathname ext) ||
    skipPatterns.any (fun p => strStartsWith pathname p)

/-- Minimal model of `JSON.stringify` on a string
(escaping is irrelevant to the claims). -/
def jsonEncodeString (s : String) : String :=
  "\"" ++ s ++ "\""

/-- Minimal model of `JSON.stringify` on a list of strings. -/
def jsonEncodeList (xs : List String) : String :=
  "[" ++ joinWith "," (xs.map jsonEncodeString) ++ "]"

/-- A redirect response: the target path and its query parameters in order
(the origin is copied from the incoming request and identical across
responses to the same request). -/
structure RedirectTarget where
  path : String
  query : List (String × String)
deriving DecidableEq, Repr

/-- The redirect built by `envValidationMiddleware` when validation failed:
full details in development, only the generic production flag and the
timestamp otherwise. -/
def buildFailureRedirect (env : Env) (v : ValidationResult) (timestamp : String) : RedirectTarget :=
  if env.getStr "NODE_ENV" = "development" then
    { path := "/env-error"
    , query := [("errors", jsonEncodeList v.errors),
                ("warnings", jsonEncodeList v.warnings),
                ("timestamp", timestamp)] }
  else
    { path := "/env-error"
    , query := [("production", "true"), ("timestamp", timestamp)] }

/-- `envValidationMiddleware` from env-validation-middleware.ts. -/
def envValidationMiddleware (st : MState) (env : Env) (pathname timestamp : String) :
    Option RedirectTarget × MState :=
  if shouldSkipValidation pathname = true then (none, st)
  else if strStartsWith pathname "/env-error" = true then (none, st)
  else
    let vr := validateEnvironmentConfiguration st env
    if vr.1.isValid = false then
      (some (buildFailureRedirect env vr.1 timestamp), vr.2)
    else if vr.1.warnings.isEmpty = false ∧ st.hasLoggedWarnings = false then
      (none, { vr.2 with hasLoggedWarnings := true })
    else (none, vr.2)

/-- The production scenario of the spec: sqlite with a `file:` URL, a valid
https non-localhost auth URL, a 40-character secret, Supabase variables set. -/
def envProdSqlite : Env :=
  ⟨[("NODE_ENV", "production"), ("DATABASE_PROVIDER", "sqlite"),
    ("DATABASE_URL", "file:./prod.db"), ("NEXTAUTH_URL", "https://app.example.com"),
    ("NEXTAUTH_SECRET", "abcdefghijklmnopqrstuvwxyz0123456789ABCD"),
    ("SUPABASE_URL", "https://proj.supabase.co"), ("SUPABASE_ANON_KEY", "anonvalue")]⟩

/-- A failing production environment: only `NODE_ENV` is set, so the loader
throws the aggregated missing-variable error inside the first validation. -/
def envFail : Env := ⟨[("NODE_ENV", "production")]⟩

/-- A development environment on which a fresh validation pass is clean. -/
def envDevGood : Env :=
  ⟨[("NODE_ENV", "development"), ("DATABASE_PROVIDER", "sqlite"),
    ("DATABASE_URL", "file:./dev.db"), ("NEXTAUTH_URL", "http://localhost:3000"),
    ("NEXTAUTH_SECRET", "x")]⟩

/-- The configuration the Loader produces for `envDevGood`. -/
def cfgDevGood : EnvironmentConfig :=
  { nodeEnv := Environment.development, databaseUrl := "file:./dev.db",
    databaseProvider := "sqlite", nextAuthUrl := "http://localhost:3000",
    nextAuthSecret := "x", supabaseConfig := none, oauthProviders := none }

/-- The loader's loop entry for a Google client id without its secret. -/
def googleIdSetMsg : String :=
  "GOOGLE OAuth: GOOGLE_CLIENT_ID is set but GOOGLE_CLIENT_SECRET is missing"

/-- The loader's loop entry for a Google client secret without its id. -/
def googleSecSetMsg : String :=
  "GOOGLE OAuth: GOOGLE_CLIENT_SECRET is set but GOOGLE_CLIENT_ID is missing"

/-- The loader's loop entry for a GitHub client id without its secret. -/
def githubIdSetMsg : String :=
  "GITHUB OAuth: GITHUB_CLIENT_ID is set but GITHUB_CLIENT_SECRET is missing"

/-- The loader's loop entry for a GitHub client secret without its id. -/
def githubSecSetMsg : String :=
  "GITHUB OAuth: GITHUB_CLIENT_SECRET is set but GITHUB_CLIENT_ID is missing"

deriving instance DecidableEq for Except

/-- A test-mode environment in which required variables are missing. -/
def envTestMissing : Env := ⟨[("NODE_ENV", "test")]⟩

/-- A test-mode environment with all production variables set and an
unsupported provider value. -/
def envTestMysql : Env :=
  ⟨[("NODE_ENV", "test"), ("DATABASE_PROVIDER", "mysql"), ("DATABASE_URL", "mysql://h/db"),
    ("NEXTAUTH_URL", "https://a.example.com"), ("NEXTAUTH_SECRET", "x"),
    ("SUPABASE_URL", "u"), ("SUPABASE_ANON_KEY", "k")]⟩

/-- A development environment lacking the required `NEXTAUTH_SECRET`. -/
def envDevNoSecret : Env :=
  ⟨[("NODE_ENV", "development"), ("DATABASE_PROVIDER", "sqlite"),
    ("DATABASE_URL", "file:./dev.db"), ("NEXTAUTH_URL", "http://localhost:3000")]⟩

/-- A production serving environment whose auth URL has no URL scheme. -/
def envProdBadUrl : Env :=
  ⟨[("NODE_ENV", "production"), ("DATABASE_PROVIDER", "postgresql"),
    ("DATABASE_URL", "postgres://user@db.example.com/app"), ("NEXTAUTH_URL", "notaurl"),
    ("NEXTAUTH_SECRET", "abcdefghijklmnopqrstuvwxyz0123456789ABCD"),
    ("SUPABASE_URL", "https://proj.supabase.co"), ("SUPABASE_ANON_KEY", "anonvalue")]⟩

/-- A complete, valid production serving environment. -/
def envProdOk : Env :=
  ⟨[("NODE_ENV", "production"), ("DATABASE_PROVIDER", "postgresql"),
    ("DATABASE_URL", "postgres://user@db.example.com/app"),
    ("NEXTAUTH_URL", "https://app.example.com"),
    ("NEXTAUTH_SECRET", "abcdefghijklmnopqrstuvwxyz0123456789ABCD"),
    ("SUPABASE_URL", "https://proj.supabase.co"), ("SUPABASE_ANON_KEY", "anonvalue")]⟩

/-- The configuration the Loader produces for `envProdOk`. -/
def cfgProdOk : EnvironmentConfig :=
  { nodeEnv := Environment.production, databaseUrl := "postgres://user@db.example.com/app",
    databaseProvider := "postgresql", nextAuthUrl := "https://app.example.com",
    nextAuthSecret := "abcdefghijklmnopqrstuvwxyz0123456789ABCD",
    supabaseConfig := some { url := "https://proj.supabase.co", anonKey := "anonvalue",
                             serviceRoleKey := none },
    oauthProviders := none }

/-- C1: the scenario claims the Runtime Validator returns at least one error
AND `isValid = false`.  At the exact scenario environment the code does
report the `file:`-forbidden error, but the returned `isValid` is `true`,
because `isValid` was fixed by the base checks before the production checks
appended their errors.  This refutes the `isValid = false` half. -/
theorem c1_counterexample :
    (validateEnvironmentConfiguration initMState envProdSqlite).1.errors ≠ [] ∧
    (validateEnvironmentConfiguration initMState envProdSqlite).1.isValid ≠ false := by
  decide

/-- C1 (amended): for the production sqlite scenario the Runtime Validator
reports exactly the `file:`-forbidden-in-production error, but the result has
`isValid = true`: the validity flag is computed by the base checks before the
production-specific errors are appended. -/
theorem c1_amended :
    (validateEnvironmentConfiguration initMState envProdSqlite).1.errors = [sqliteProdErrorMsg] ∧
    (validateEnvironmentConfiguration initMState envProdSqlite).1.isValid = true := by
  decide

/-- C2: the `isValid` field of the result of `validateEnvironmentConfiguration`
is exactly the `isValid` computed by the base pass `validateEnvironmentVariables`
for every state and environment; the development-, production- and
cross-environment checks only append to the error and warning lists.  In
particular (second conjunct, at the production sqlite scenario) the result can
have `isValid = true` together with a non-empty error list. -/
theorem c2_isValid_solely_base :
    (∀ (st : MState) (env : Env),
      (validateEnvironmentConfiguration st env).1.isValid =
        (validateEnvironmentVariablesRun st env).1.isValid) ∧
    ((validateEnvironmentConfiguration initMState envProdSqlite).1.isValid = true ∧
     (validateEnvironmentConfiguration initMState envProdSqlite).1.errors ≠ []) := by
  refine ⟨fun st env => ?_, by decide⟩
  unfold validateEnvironmentConfiguration validateCrossEnvironmentConsistency
    validateProductionConfiguration validateDevelopmentConfiguration
  dsimp only
  split <;> split <;> rfl

/-- Every status computed by the body of `validateEnvironmentVariables`
satisfies the cache guard `isValid || errors.length > 0`. -/
theorem computeValidation_eligible (c : Option EnvironmentConfig) (env : Env) :
    ((computeValidation c env).1.isValid || !(computeValidation c env).1.errors.isEmpty) = true := by
  unfold computeValidation
  cases h : getEnvironmentConfig c env with
  | error e => simp
  | ok r => simp

/-- C9: the claim says a failing validation pass is not memoized and is
recomputed on every call until the first success.  Concretely: the first pass
on `envFail` fails (`isValid = false`, one error); a second call — on an
environment that a fresh pass validates cleanly — still returns the cached
failing result unchanged.  The failed pass was memoized, refuting the claim. -/
theorem c9_counterexample :
    (validateEnvironmentVariablesRun initMState envFail).1.isValid = false ∧
    (validateEnvironmentVariablesRun initMState envFail).1.errors ≠ [] ∧
    validateEnvironmentVariablesRun (validateEnvironmentVariablesRun initMState envFail).2 envDevGood =
      validateEnvironmentVariablesRun initMState envFail ∧
    (validateEnvironmentVariablesRun initMState envDevGood).1.isValid = true := by
  decide

/-- C9 (amended): the validator memoizes the first computed result
permanently, whether it succeeded or failed.  The cache guard
`isValid || errors.length > 0` holds for every computed status (a success has
`isValid = true`, a failure has a non-empty error list), so after any call
every later call returns the first call's result and state unchanged. -/
theorem c9_amended (st : MState) (env env' : Env) :
    validateEnvironmentVariablesRun (validateEnvironmentVariablesRun st env).2 env' =
      validateEnvironmentVariablesRun st env := by
  by_cases h : (st.validationStatus.isValid || !st.validationStatus.errors.isEmpty) = true
  · have h1 : validateEnvironmentVariablesRun st env = (st.validationStatus, st) := by
      unfold validateEnvironmentVariablesRun
      rw [if_pos h]
    rw [h1]
    unfold validateEnvironmentVariablesRun
    rw [if_pos h]
  · have h1 : validateEnvironmentVariablesRun st env =
        ((computeValidation st.config env).1,
         { st with validationStatus := (computeValidation st.config env).1,
                   config := (computeValidation st.config env).2 }) := by
      unfold validateEnvironmentVariablesRun
      rw [if_neg h]
    rw [h1]
    unfold validateEnvironmentVariablesRun
    rw [if_pos (computeValidation_eligible st.config env)]

/-- C6: the Environment Detector is total (a Lean function), maps the three
canonical strings case-insensitively to their modes without warning, and maps
every other value of `NODE_ENV` — including an absent one — to development
with the warning side-effect. -/
theorem c6_detect_total_case_insensitive (env : Env) :
    ((env.get? "NODE_ENV").map jsToLowerCase = some "development" →
      detectEnvironment env = Environment.development ∧ detectEnvironmentWarns env = false) ∧
    ((env.get? "NODE_ENV").map jsToLowerCase = some "production" →
      detectEnvironment env = Environment.production ∧ detectEnvironmentWarns env = false) ∧
    ((env.get? "NODE_ENV").map jsToLowerCase = some "test" →
      detectEnvironment env = Environment.test ∧ detectEnvironmentWarns env = false) ∧
    ((env.get? "NODE_ENV").map jsToLowerCase ≠ some "development" →
     (env.get? "NODE_ENV").map jsToLowerCase ≠ some "production" →
     (env.get? "NODE_ENV").map jsToLowerCase ≠ some "test" →
      detectEnvironment env = Environment.development ∧ detectEnvironmentWarns env = true) := by
  refine ⟨fun h => ?_, fun h => ?_, fun h => ?_, fun h1 h2 h3 => ?_⟩
  · unfold detectEnvironment detectEnvironmentWarns
    rw [h]
    simp
  · unfold detectEnvironment detectEnvironmentWarns
    rw [h]
    simp
  · unfold detectEnvironment detectEnvironmentWarns
    rw [h]
    simp
  · unfold detectEnvironment detectEnvironmentWarns
    rw [if_neg h1, if_neg h2, if_neg h3, if_neg h1, if_neg h2, if_neg h3]
    exact ⟨rfl, rfl⟩

/-- C6 witness: `NODE_ENV = "PRODUCTION"` maps to production mode without a
warning, and `NODE_ENV = "staging"` maps to development with a warning. -/
theorem c6_witness :
    (detectEnvironment ⟨[("NODE_ENV", "PRODUCTION")]⟩ = Environment.production ∧
     detectEnvironmentWarns ⟨[("NODE_ENV", "PRODUCTION")]⟩ = false) ∧
    (detectEnvironment ⟨[("NODE_ENV", "staging")]⟩ = Environment.development ∧
     detectEnvironmentWarns ⟨[("NODE_ENV", "staging")]⟩ = true) :=
  ⟨(c6_detect_total_case_insensitive ⟨[("NODE_ENV", "PRODUCTION")]⟩).2.1 (by decide),
   (c6_detect_total_case_insensitive ⟨[("NODE_ENV", "staging")]⟩).2.2.2
     (by decide) (by decide) (by decide)⟩

/-- C7: the Loader accessor is idempotent inside a process: with a populated
cache it returns the cached record unchanged for any ambient environment, and
after a first successful call the cache holds exactly the returned record, so
a second call — under any mutated ambient environment `env'` — returns the
identical record and state. -/
theorem c7_loader_idempotent (c : EnvironmentConfig) (env env' : Env) :
    getEnvironmentConfig (some c) env = .ok (c, some c) ∧
    (∀ (c' : EnvironmentConfig) (cache' : Option EnvironmentConfig),
      getEnvironmentConfig none env = .ok (c', cache') →
      cache' = some c' ∧ getEnvironmentConfig cache' env' = .ok (c', cache')) := by
  refine ⟨rfl, fun c' cache' h => ?_⟩
  unfold getEnvironmentConfig at h
  cases hl : loadEnvironmentConfig env with
  | ok cc =>
    rw [hl] at h
    cases h
    exact ⟨rfl, rfl⟩
  | error e =>
    rw [hl] at h
    cases h

/-- C7 witness: after a first successful load of `envDevGood`, a second call
with the entirely different ambient environment `envFail` still returns the
cached record. -/
theorem c7_witness :
    some cfgDevGood = some cfgDevGood ∧
    getEnvironmentConfig (some cfgDevGood) envFail = .ok (cfgDevGood, some cfgDevGood) :=
  (c7_loader_idempotent cfgDevGood envDevGood envFail).2 cfgDevGood (some cfgDevGood) rfl

/-- In production mode the raw `NODE_ENV` string cannot be `"development"`,
so the middleware's development branch is unreachable. -/
theorem detect_production_raw (env : Env) (hm : detectEnvironment env = Environment.production) :
    env.getStr "NODE_ENV" ≠ "development" := by
  intro hne
  cases hg : env.get? "NODE_ENV" with
  | none => simp [Env.getStr, hg] at hne
  | some s =>
    rw [Env.getStr, hg] at hne
    simp at hne
    subst hne
    have hlow : jsToLowerCase "development" = "development" := rfl
    simp [detectEnvironment, hg, hlow] at hm

/-- C10: when validation fails in production mode, the redirect carries only
the generic production flag and the timestamp: any two failing validation
results produce the identical redirect, and that redirect's query names no
error or warning content.  The last conjunct ties this to the per-request
gate itself. -/
theorem c10_production_redirect_generic (env : Env) (v1 v2 : ValidationResult) (ts : String)
    (hm : detectEnvironment env = Environment.production)
    (h1 : v1.isValid = false) (h2 : v2.isValid = false) :
    buildFailureRedirect env v1 ts = buildFailureRedirect env v2 ts ∧
    buildFailureRedirect env v1 ts =
      { path := "/env-error", query := [("production", "true"), ("timestamp", ts)] } ∧
    (∀ (st : MState) (pathname : String),
      shouldSkipValidation pathname = false →
      strStartsWith pathname "/env-error" = false →
      (validateEnvironmentConfiguration st env).1.isValid = false →
      (envValidationMiddleware st env pathname ts).1 =
        some { path := "/env-error", query := [("production", "true"), ("timestamp", ts)] }) := by
  have hne := detect_production_raw env hm
  refine ⟨?_, ?_, ?_⟩
  · unfold buildFailureRedirect
    rw [if_neg hne, if_neg hne]
  · unfold buildFailureRedirect
    rw [if_neg hne]
  · intro st pathname hskip herr hv
    unfold envValidationMiddleware
    rw [if_neg (by simp [hskip]), if_neg (by simp [herr])]
    dsimp only
    rw [if_pos hv]
    unfold buildFailureRedirect
    rw [if_neg hne]

/-- C10 witness: at `envFail` (production mode, failing validation) two
different failing results map to the same generic redirect, and the gate
returns it for an ordinary page request. -/
theorem c10_witness :
    buildFailureRedirect envFail { isValid := false, errors := ["a"], warnings := [] } "t" =
      buildFailureRedirect envFail { isValid := false, errors := ["b", "c"], warnings := ["w"] } "t" ∧
    buildFailureRedirect envFail { isValid := false, errors := ["a"], warnings := [] } "t" =
      { path := "/env-error", query := [("production", "true"), ("timestamp", "t")] } ∧
    (envValidationMiddleware initMState envFail "/dashboard" "t").1 =
      some { path := "/env-error", query := [("production", "true"), ("timestamp", "t")] } := by
  have h := c10_production_redirect_generic envFail
    { isValid := false, errors := ["a"], warnings := [] }
    { isValid := false, errors := ["b", "c"], warnings := ["w"] } "t"
    (by decide) rfl rfl
  exact ⟨h.1, h.2.1, h.2.2 initMState "/dashboard" (by decide) (by decide) (by decide)⟩

/-- When the OAuth loop collected an error, `validateOAuthProviders` throws
the aggregated message, so `loadEnvironmentConfig` fails as well. -/
theorem oauth_nonempty_load (env : Env) (hne : oauthPairErrors env ≠ []) :
    validateOAuthProviders env = .error (oauthErrorMessage (oauthPairErrors env)) ∧
    exceptIsOk (loadEnvironmentConfig env) = false := by
  have hv : validateOAuthProviders env = .error (oauthErrorMessage (oauthPairErrors env)) := by
    unfold validateOAuthProviders
    rw [if_neg hne]
  refine ⟨hv, ?_⟩
  unfold loadEnvironmentConfig
  cases hr : validateRequiredVariables (detectEnvironment env) env with
  | error e => simp only [hr]; rfl
  | ok b => simp only [hr, hv]; rfl

/-- The cross-environment OAuth errors always reach the final error list of
`validateEnvironmentConfiguration`, whatever the state and the other checks. -/
theorem config_errors_nonempty (st : MState) (env : Env)
    (h : oauthConsistencyErrors env ≠ []) :
    (validateEnvironmentConfiguration st env).1.errors ≠ [] := by
  have hp : ∃ pre, (validateEnvironmentConfiguration st env).1.errors =
      pre ++ dbConsistencyErrors env ++ oauthConsistencyErrors env ++ typoErrors env := by
    unfold validateEnvironmentConfiguration validateCrossEnvironmentConsistency
    exact ⟨_, rfl⟩
  obtain ⟨pre, hpre⟩ := hp
  rw [hpre]
  intro hnil
  rcases List.append_eq_nil.mp hnil with ⟨ha, _⟩
  rcases List.append_eq_nil.mp ha with ⟨_, hb⟩
  exact h hb

/-- C8: OAuth pair validation is symmetric.  For each provider, the partial
state with only the client id and the partial state with only the client
secret each make the Loader's loop record an entry naming the missing
counterpart and `validateOAuthProviders` throw the aggregated message (so
loading fails), and each make the Runtime Validator's cross-environment check
record the provider's incomplete-configuration error (so the final error list
is never empty: no partial state passes silently).  The last block checks
that every recorded message names the missing counterpart variable. -/
theorem c8_oauth_pair_symmetry (env : Env) :
    (env.truthy "GOOGLE_CLIENT_ID" = true → env.truthy "GOOGLE_CLIENT_SECRET" = false →
      googleIdSetMsg ∈ oauthPairErrors env ∧
      validateOAuthProviders env = .error (oauthErrorMessage (oauthPairErrors env)) ∧
      googleIncompleteMsg ∈ oauthConsistencyErrors env ∧
      exceptIsOk (loadEnvironmentConfig env) = false ∧
      (∀ st : MState, (validateEnvironmentConfiguration st env).1.errors ≠ [])) ∧
    (env.truthy "GOOGLE_CLIENT_ID" = false → env.truthy "GOOGLE_CLIENT_SECRET" = true →
      googleSecSetMsg ∈ oauthPairErrors env ∧
      validateOAuthProviders env = .error (oauthErrorMessage (oauthPairErrors env)) ∧
      googleIncompleteMsg ∈ oauthConsistencyErrors env ∧
      exceptIsOk (loadEnvironmentConfig env) = false ∧
      (∀ st : MState, (validateEnvironmentConfiguration st env).1.errors ≠ [])) ∧
    (env.truthy "GITHUB_CLIENT_ID" = true → env.truthy "GITHUB_CLIENT_SECRET" = false →
      githubIdSetMsg ∈ oauthPairErrors env ∧
      validateOAuthProviders env = .error (oauthErrorMessage (oauthPairErrors env)) ∧
      githubIncompleteMsg ∈ oauthConsistencyErrors env ∧
      exceptIsOk (loadEnvironmentConfig env) = false ∧
      (∀ st : MState, (validateEnvironmentConfiguration st env).1.errors ≠ [])) ∧
    (env.truthy "GITHUB_CLIENT_ID" = false → env.truthy "GITHUB_CLIENT_SECRET" = true →
      githubSecSetMsg ∈ oauthPairErrors env ∧
      validateOAuthProviders env = .error (oauthErrorMessage (oauthPairErrors env)) ∧
      githubIncompleteMsg ∈ oauthConsistencyErrors env ∧
      exceptIsOk (loadEnvironmentConfig env) = false ∧
      (∀ st : MState, (validateEnvironmentConfiguration st env).1.errors ≠ [])) ∧
    (strIncludes googleIdSetMsg "GOOGLE_CLIENT_SECRET" = true ∧
     strIncludes googleSecSetMsg "GOOGLE_CLIENT_ID" = true ∧
     strIncludes githubIdSetMsg "GITHUB_CLIENT_SECRET" = true ∧
     strIncludes githubSecSetMsg "GITHUB_CLIENT_ID" = true ∧
     strIncludes googleIncompleteMsg "GOOGLE_CLIENT_ID" = true ∧
     strIncludes googleIncompleteMsg "GOOGLE_CLIENT_SECRET" = true ∧
     strIncludes githubIncompleteMsg "GITHUB_CLIENT_ID" = true ∧
     strIncludes githubIncompleteMsg "GITHUB_CLIENT_SECRET" = true) := by
  refine ⟨fun h1 h2 => ?_, fun h1 h2 => ?_, fun h1 h2 => ?_, fun h1 h2 => ?_, by decide⟩
  · have hmemP : googleIdSetMsg ∈ oauthPairErrors env := by
      simp [oauthPairErrors, OAUTH_PROVIDER_PAIRS, listFlatten, h1, h2]
      exact Or.inl rfl
    have hmemC : googleIncompleteMsg ∈ oauthConsistencyErrors env := by
      simp [oauthConsistencyErrors, h1, h2]
    obtain ⟨hv, hl⟩ := oauth_nonempty_load env (List.ne_nil_of_mem hmemP)
    exact ⟨hmemP, hv, hmemC, hl,
      fun st => config_errors_nonempty st env (List.ne_nil_of_mem hmemC)⟩
  · have hmemP : googleSecSetMsg ∈ oauthPairErrors env := by
      simp [oauthPairErrors, OAUTH_PROVIDER_PAIRS, listFlatten, h1, h2]
      exact Or.inl rfl
    have hmemC : googleIncompleteMsg ∈ oauthConsistencyErrors env := by
      simp [oauthConsistencyErrors, h1, h2]
    obtain ⟨hv, hl⟩ := oauth_nonempty_load env (List.ne_nil_of_mem hmemP)
    exact ⟨hmemP, hv, hmemC, hl,
      fun st => config_errors_nonempty st env (List.ne_nil_of_mem hmemC)⟩
  · have hmemP : githubIdSetMsg ∈ oauthPairErrors env := by
      simp [oauthPairErrors, OAUTH_PROVIDER_PAIRS, listFlatten, h1, h2]
      exact Or.inr rfl
    have hmemC : githubIncompleteMsg ∈ oauthConsistencyErrors env := by
      simp [oauthConsistencyErrors, h1, h2]
    obtain ⟨hv, hl⟩ := oauth_nonempty_load env (List.ne_nil_of_mem hmemP)
    exact ⟨hmemP, hv, hmemC, hl,
      fun st => config_errors_nonempty st env (List.ne_nil_of_mem hmemC)⟩
  · have hmemP : githubSecSetMsg ∈ oauthPairErrors env := by
      simp [oauthPairErrors, OAUTH_PROVIDER_PAIRS, listFlatten, h1, h2]
      exact Or.inr rfl
    have hmemC : githubIncompleteMsg ∈ oauthConsistencyErrors env := by
      simp [oauthConsistencyErrors, h1, h2]
    obtain ⟨hv, hl⟩ := oauth_nonempty_load env (List.ne_nil_of_mem hmemP)
    exact ⟨hmemP, hv, hmemC, hl,
      fun st => config_errors_nonempty st env (List.ne_nil_of_mem hmemC)⟩

/-- C8 witness: the four partial OAuth states, realised by four concrete
environments, each produce the promised loader and validator failures. -/
theorem c8_witness :
    (googleIdSetMsg ∈ oauthPairErrors ⟨[("GOOGLE_CLIENT_ID", "gid")]⟩ ∧
     exceptIsOk (loadEnvironmentConfig ⟨[("GOOGLE_CLIENT_ID", "gid")]⟩) = false) ∧
    (googleSecSetMsg ∈ oauthPairErrors ⟨[("GOOGLE_CLIENT_SECRET", "gsec")]⟩ ∧
     (validateEnvironmentConfiguration initMState ⟨[("GOOGLE_CLIENT_SECRET", "gsec")]⟩).1.errors ≠ []) ∧
    (githubIdSetMsg ∈ oauthPairErrors ⟨[("GITHUB_CLIENT_ID", "hid")]⟩ ∧
     githubIncompleteMsg ∈ oauthConsistencyErrors ⟨[("GITHUB_CLIENT_ID", "hid")]⟩) ∧
    (githubSecSetMsg ∈ oauthPairErrors ⟨[("GITHUB_CLIENT_SECRET", "hsec")]⟩ ∧
     exceptIsOk (loadEnvironmentConfig ⟨[("GITHUB_CLIENT_SECRET", "hsec")]⟩) = false) := by
  have hg1 := (c8_oauth_pair_symmetry ⟨[("GOOGLE_CLIENT_ID", "gid")]⟩).1 (by decide) (by decide)
  have hg2 := (c8_oauth_pair_symmetry ⟨[("GOOGLE_CLIENT_SECRET", "gsec")]⟩).2.1 (by decide) (by decide)
  have hh1 := (c8_oauth_pair_symmetry ⟨[("GITHUB_CLIENT_ID", "hid")]⟩).2.2.1 (by decide) (by decide)
  have hh2 := (c8_oauth_pair_symmetry ⟨[("GITHUB_CLIENT_SECRET", "hsec")]⟩).2.2.2.1 (by decide) (by decide)
  exact ⟨⟨hg1.1, hg1.2.2.2.1⟩, ⟨hg2.1, hg2.2.2.2.2 initMState⟩,
    ⟨hh1.1, hh1.2.2.1⟩, ⟨hh2.1, hh2.2.2.2.1⟩⟩

/-- Characterisation of `validateRequiredVariables` for the modes that have a
rule-table entry: a throw happens only under raw `NODE_ENV = "production"`
with no build-phase marker, and otherwise the call returns, flagging a
warning exactly when some required variable is missing. -/
theorem c4_helper (mode : Environment) (env : Env) (extra : List String)
    (hx : REQUIRED_VARS_extra mode = some extra) :
    (exceptIsOk (validateRequiredVariables mode env) = false →
      env.getStr "NODE_ENV" = "production" ∧ env.truthy "NEXT_PHASE" = false) ∧
    ((env.getStr "NODE_ENV" ≠ "production" ∨ env.truthy "NEXT_PHASE" = true) →
      validateRequiredVariables mode env = .ok (!(requiredMissing mode env).isEmpty)) := by
  have hrm : requiredMissing mode env =
      (REQUIRED_VARS_base ++ extra).filter (fun v => !env.truthy v) := by
    rw [requiredMissing, hx]
    rfl
  constructor
  · intro hfail
    unfold validateRequiredVariables at hfail
    rw [hx] at hfail
    dsimp only at hfail
    by_cases hm : (REQUIRED_VARS_base ++ extra).filter (fun v => !env.truthy v) = []
    · rw [if_pos hm] at hfail
      exact absurd hfail (by simp [exceptIsOk])
    · rw [if_neg hm] at hfail
      by_cases hc : env.getStr "NODE_ENV" = "production" ∧ env.truthy "NEXT_PHASE" = false
      · exact hc
      · rw [if_neg hc] at hfail
        exact absurd hfail (by simp [exceptIsOk])
  · intro hok
    unfold validateRequiredVariables
    rw [hx]
    dsimp only
    rw [hrm]
    by_cases hm : (REQUIRED_VARS_base ++ extra).filter (fun v => !env.truthy v) = []
    · rw [if_pos hm, hm]
      rfl
    · rw [if_neg hm, if_neg ?hc]
      case hc =>
        intro hc
        rcases hok with h | h
        · exact h hc.1
        · rw [hc.2] at h
          cases h
      · have hie : ((REQUIRED_VARS_base ++ extra).filter (fun v => !env.truthy v)).isEmpty = false := by
          cases hl : (REQUIRED_VARS_base ++ extra).filter (fun v => !env.truthy v) with
          | nil => exact absurd hl hm
          | cons a t => rfl
        rw [hie]
        rfl

/-- C4: the claim says the loader raises only in production serving mode and
that every other combination downgrades missing variables to a warning and
proceeds.  In test mode — neither production nor the build phase — required
variables are missing, yet `validateRequiredVariables` raises (the rule-table
lookup `REQUIRED_VARS[\"test\"]` is undefined and its spread throws), so
loading does not proceed: the claim fails for mode `test`. -/
theorem c4_counterexample :
    detectEnvironment envTestMissing = Environment.test ∧
    requiredMissing Environment.test envTestMissing ≠ [] ∧
    exceptIsOk (validateRequiredVariables Environment.test envTestMissing) = false ∧
    exceptIsOk (loadEnvironmentConfig envTestMissing) = false := by
  decide

/-- C4 (amended): outside test mode, the loader's missing-variable check
raises only when the raw `NODE_ENV` equals `"production"` and the build-phase
marker is unset; in any other non-test combination it returns normally,
with the warning flag set exactly when variables are missing.  In test mode
the call always raises, from the rule-table lookup itself. -/
theorem c4_amended (mode : Environment) (env : Env) :
    (mode ≠ Environment.test → exceptIsOk (validateRequiredVariables mode env) = false →
      env.getStr "NODE_ENV" = "production" ∧ env.truthy "NEXT_PHASE" = false) ∧
    (mode ≠ Environment.test →
      (env.getStr "NODE_ENV" ≠ "production" ∨ env.truthy "NEXT_PHASE" = true) →
      validateRequiredVariables mode env = .ok (!(requiredMissing mode env).isEmpty)) ∧
    (mode = Environment.test → exceptIsOk (validateRequiredVariables mode env) = false) := by
  cases mode with
  | test => exact ⟨fun h => absurd rfl h, fun h => absurd rfl h, fun _ => rfl⟩
  | development =>
    have h := c4_helper Environment.development env [] rfl
    exact ⟨fun _ => h.1, fun _ => h.2, fun hc => nomatch hc⟩
  | production =>
    have h := c4_helper Environment.production env ["SUPABASE_URL", "SUPABASE_ANON_KEY"] rfl
    exact ⟨fun _ => h.1, fun _ => h.2, fun hc => nomatch hc⟩

/-- C4 witness: in development mode with an empty ambient environment every
required variable is missing, yet the check returns with the warning flag. -/
theorem c4_amended_witness :
    validateRequiredVariables Environment.development ⟨[]⟩ =
      .ok (!(requiredMissing Environment.development ⟨[]⟩).isEmpty) ∧
    requiredMissing Environment.development ⟨[]⟩ ≠ [] :=
  ⟨(c4_amended Environment.development ⟨[]⟩).2.1 (by decide) (Or.inl (by decide)), by decide⟩

/-- A list is a prefix of itself followed by anything. -/
theorem listPrefixB_append (l t : List Char) : listPrefixB l (l ++ t) = true := by
  induction l with
  | nil => rfl
  | cons a as ih => simp [listPrefixB, ih]

/-- A list occurs inside itself followed by anything. -/
theorem listInfixB_self_append (pat post : List Char) : listInfixB pat (pat ++ post) = true := by
  cases pat with
  | nil => cases post <;> rfl
  | cons a as =>
    rw [List.cons_append, listInfixB, ← List.cons_append, listPrefixB_append, Bool.true_or]

/-- A list occurs inside any surrounding of itself. -/
theorem listInfixB_pre (pre pat post : List Char) :
    listInfixB pat (pre ++ (pat ++ post)) = true := by
  induction pre with
  | nil =>
    rw [List.nil_append]
    exact listInfixB_self_append pat post
  | cons c cs ih =>
    rw [List.cons_append, listInfixB, ih, Bool.or_true]

/-- A string built around `u` by concatenation contains `u`: the construction
`prefix ++ value ++ suffix` names the offending value. -/
theorem strIncludes_mid (a u b : String) : strIncludes (a ++ u ++ b) u = true := by
  unfold strIncludes
  rw [String.data_append, String.data_append, List.append_assoc]
  exact listInfixB_pre a.data u.data b.data

/-- C5: the claim says an out-of-enum provider makes the Loader raise an
error listing that provider, regardless of mode.  In test mode, with every
variable set and `DATABASE_PROVIDER = "mysql"`, the Loader instead raises the
rule-table lookup failure, whose message does not mention `"mysql"` at all,
so the regardless-of-mode half fails. -/
theorem c5_counterexample :
    envTestMysql.getStr "DATABASE_PROVIDER" = "mysql" ∧
    requiredMissing Environment.production envTestMysql = [] ∧
    detectEnvironment envTestMysql = Environment.test ∧
    loadEnvironmentConfig envTestMysql = .error testModeLookupError ∧
    strIncludes testModeLookupError "mysql" = false := by
  decide

/-- C5 (amended): provider/URL pairs with matching prefixes pass
`validateDatabaseConfig`; mismatched pairs fail with a message that names the
actual offending URL (the `strIncludes` block); and an out-of-enum provider
makes the Loader raise the invalid-provider error naming it, in every mode in
which the earlier required-variable check returns (development always,
production when its variables are present — but not test, where the Loader
fails earlier with the rule-table error). -/
theorem c5_amended (provider url : String) (env : Env) :
    ((provider = "sqlite" ∧ strStartsWith url "file:" = true) ∨
     (provider = "postgresql" ∧ strStartsWith url "postgres" = true) →
      validateDatabaseConfig provider url = .ok ()) ∧
    (provider = "sqlite" → strStartsWith url "file:" = false →
      validateDatabaseConfig provider url = .error (invalidSqliteUrlMsg url)) ∧
    (provider = "postgresql" → strStartsWith url "postgres" = false →
      validateDatabaseConfig provider url = .error (invalidPostgresUrlMsg url)) ∧
    (strIncludes (invalidSqliteUrlMsg url) url = true ∧
     strIncludes (invalidPostgresUrlMsg url) url = true ∧
     strIncludes (invalidProviderMsg provider) provider = true) ∧
    (exceptIsOk (validateRequiredVariables (detectEnvironment env) env) = true →
     oauthPairErrors env = [] →
     ¬(env.getStr "DATABASE_PROVIDER" = "sqlite" ∨ env.getStr "DATABASE_PROVIDER" = "postgresql") →
      loadEnvironmentConfig env = .error (invalidProviderMsg (env.getStr "DATABASE_PROVIDER"))) := by
  refine ⟨fun hok => ?_, fun h1 h2 => ?_, fun h1 h2 => ?_,
    ⟨strIncludes_mid _ _ _, strIncludes_mid _ _ _, strIncludes_mid _ _ _⟩, fun h1 h2 h3 => ?_⟩
  · rcases hok with ⟨hp, hu⟩ | ⟨hp, hu⟩ <;> simp [validateDatabaseConfig, hp, hu]
  · simp [validateDatabaseConfig, h1, h2]
  · simp [validateDatabaseConfig, h1, h2]
  · unfold loadEnvironmentConfig
    cases hr : validateRequiredVariables (detectEnvironment env) env with
    | error e =>
      rw [hr] at h1
      exact absurd h1 (by simp [exceptIsOk])
    | ok b =>
      simp only [hr]
      have hoa : validateOAuthProviders env = .ok () := by
        unfold validateOAuthProviders
        rw [if_pos h2]
      simp only [hoa]
      have hdb : createDatabaseConfig (detectEnvironment env) env =
          .error (invalidProviderMsg (env.getStr "DATABASE_PROVIDER")) := by
        have hv : validateDatabaseConfig (env.getStr "DATABASE_PROVIDER") (env.getStr "DATABASE_URL") =
            .error (invalidProviderMsg (env.getStr "DATABASE_PROVIDER")) := by
          unfold validateDatabaseConfig
          rw [if_pos h3]
        unfold createDatabaseConfig
        simp only [hv]
      simp only [hdb]

/-- C5 witness: a matching pair passes, both mismatches fail with the
URL-naming message, and a `"mysql"` provider in development mode makes the
Loader raise the invalid-provider error naming `"mysql"`. -/
theorem c5_witness :
    validateDatabaseConfig "sqlite" "file:./dev.db" = .ok () ∧
    validateDatabaseConfig "sqlite" "postgres://x" = .error (invalidSqliteUrlMsg "postgres://x") ∧
    validateDatabaseConfig "postgresql" "file:./x" = .error (invalidPostgresUrlMsg "file:./x") ∧
    loadEnvironmentConfig ⟨[("NODE_ENV", "development"), ("DATABASE_PROVIDER", "mysql")]⟩ =
      .error (invalidProviderMsg "mysql") := by
  refine ⟨?_, ?_, ?_, ?_⟩
  · exact (c5_amended "sqlite" "file:./dev.db" ⟨[]⟩).1 (Or.inl ⟨rfl, by decide⟩)
  · exact (c5_amended "sqlite" "postgres://x" ⟨[]⟩).2.1 rfl (by decide)
  · exact (c5_amended "postgresql" "file:./x" ⟨[]⟩).2.2.1 rfl (by decide)
  · exact (c5_amended "" "" ⟨[("NODE_ENV", "development"), ("DATABASE_PROVIDER", "mysql")]⟩).2.2.2.2
      (by decide) (by decide) (by decide)

/-- A truthy variable has a non-empty value. -/
theorem truthy_ne (env : Env) (n : String) (h : env.truthy n = true) : env.getStr n ≠ "" := by
  intro he
  rw [Env.getStr] at he
  rw [Env.truthy, he] at h
  exact absurd h (by decide)

/-- Raw `NODE_ENV = "production"` puts the detector in production mode. -/
theorem getStr_production_detect (env : Env) (h : env.getStr "NODE_ENV" = "production") :
    detectEnvironment env = Environment.production := by
  have hg : env.get? "NODE_ENV" = some "production" := by
    rw [Env.getStr] at h
    cases hq : env.get? "NODE_ENV" with
    | none => rw [hq] at h; exact absurd h (by decide)
    | some s => rw [hq] at h; simp at h; rw [h]
  have hlow : jsToLowerCase "production" = "production" := rfl
  simp [detectEnvironment, hg, hlow]

/-- A successful `validateDatabaseConfig` forces a known provider with the
matching URL prefix. -/
theorem validateDatabaseConfig_ok (p u : String) (uu : Unit)
    (h : validateDatabaseConfig p u = .ok uu) :
    (p = "sqlite" ∧ strStartsWith u "file:" = true) ∨
    (p = "postgresql" ∧ strStartsWith u "postgres" = true) := by
  unfold validateDatabaseConfig at h
  by_cases h1 : ¬(p = "sqlite" ∨ p = "postgresql")
  · rw [if_pos h1] at h
    cases h
  · rw [if_neg h1] at h
    by_cases h2 : p = "sqlite" ∧ strStartsWith u "file:" = false
    · rw [if_pos h2] at h
      cases h
    · rw [if_neg h2] at h
      by_cases h3 : p = "postgresql" ∧ strStartsWith u "postgres" = false
      · rw [if_pos h3] at h
        cases h
      · rcases not_not.mp h1 with hp | hp
        · left
          refine ⟨hp, ?_⟩
          cases hb : strStartsWith u "file:" with
          | true => rfl
          | false => exact absurd ⟨hp, hb⟩ h2
        · right
          refine ⟨hp, ?_⟩
          cases hb : strStartsWith u "postgres" with
          | true => rfl
          | false => exact absurd ⟨hp, hb⟩ h3

/-- C3: the claim says every field required by the active mode in a returned
configuration is non-empty and has passed format checks including the URL
scheme.  Two refutations: in development mode the loader succeeds with the
required `NEXTAUTH_SECRET` entirely absent (field empty), and even in
production serving mode it succeeds with `NEXTAUTH_URL = "notaurl"`, which
parses as no URL — the Loader never checks the auth URL's scheme. -/
theorem c3_counterexample :
    (loadEnvironmentConfig envDevNoSecret).map (fun c => c.nextAuthSecret) = .ok "" ∧
    (loadEnvironmentConfig envProdBadUrl).map (fun c => (c.nextAuthUrl, jsUrlParses c.nextAuthUrl)) =
      .ok ("notaurl", false) ∧
    envProdBadUrl.getStr "NODE_ENV" = "production" ∧ envProdBadUrl.truthy "NEXT_PHASE" = false := by
  decide

/-- C3 (amended): every configuration the Loader returns has a known database
provider whose URL carries the matching prefix; and when the raw `NODE_ENV`
is `"production"` with no build-phase marker, the mode-required fields —
database URL, auth URL, auth secret, and the Supabase URL and anon key — are
additionally non-empty.  No URL-scheme check is made on the auth URL, and in
other modes (or the build phase) required fields may be empty. -/
theorem c3_amended (env : Env) (c : EnvironmentConfig)
    (h : loadEnvironmentConfig env = .ok c) :
    ((c.databaseProvider = "sqlite" ∧ strStartsWith c.databaseUrl "file:" = true) ∨
     (c.databaseProvider = "postgresql" ∧ strStartsWith c.databaseUrl "postgres" = true)) ∧
    (env.getStr "NODE_ENV" = "production" → env.truthy "NEXT_PHASE" = false →
      c.nodeEnv = Environment.production ∧
      c.databaseUrl ≠ "" ∧ c.nextAuthUrl ≠ "" ∧ c.nextAuthSecret ≠ "" ∧
      ∃ sb, c.supabaseConfig = some sb ∧ sb.url ≠ "" ∧ sb.anonKey ≠ "") := by
  unfold loadEnvironmentConfig at h
  dsimp only at h
  cases hr : validateRequiredVariables (detectEnvironment env) env with
  | error e =>
    rw [hr] at h
    simp at h
  | ok b =>
    rw [hr] at h
    dsimp only at h
    cases ho : validateOAuthProviders env with
    | error e =>
      rw [ho] at h
      simp at h
    | ok u =>
      rw [ho] at h
      dsimp only at h
      cases hd : createDatabaseConfig (detectEnvironment env) env with
      | error e =>
        rw [hd] at h
        simp at h
      | ok dbc =>
        rw [hd] at h
        dsimp only at h
        injection h with hc
        subst hc
        unfold createDatabaseConfig at hd
        dsimp only at hd
        cases hv : validateDatabaseConfig (env.getStr "DATABASE_PROVIDER") (env.getStr "DATABASE_URL") with
        | error e =>
          rw [hv] at hd
          simp at hd
        | ok uu =>
          rw [hv] at hd
          dsimp only at hd
          injection hd with hdb
          have hprov : dbc.provider = env.getStr "DATABASE_PROVIDER" := by
            rw [← hdb]
            split <;> rfl
          have hurl : dbc.url = env.getStr "DATABASE_URL" := by
            rw [← hdb]
            split <;> rfl
          constructor
          · dsimp only
            rw [hprov, hurl]
            exact validateDatabaseConfig_ok _ _ uu hv
          · intro hp hph
            have hdet : detectEnvironment env = Environment.production :=
              getStr_production_detect env hp
            have hvr : validateRequiredVariables Environment.production env =
                (if requiredMissing Environment.production env = [] then .ok false
                 else if env.getStr "NODE_ENV" = "production" ∧ env.truthy "NEXT_PHASE" = false then
                   .error (missingVarsMessage Environment.production (requiredMissing Environment.production env))
                 else .ok true) := rfl
            rw [hdet] at hr
            rw [hvr] at hr
            have hreq : requiredMissing Environment.production env = [] := by
              by_cases hm : requiredMissing Environment.production env = []
              · exact hm
              · rw [if_neg hm, if_pos ⟨hp, hph⟩] at hr
                cases hr
            have htu : ∀ n ∈ REQUIRED_VARS_base ++ ["SUPABASE_URL", "SUPABASE_ANON_KEY"],
                env.truthy n = true := by
              intro n hn
              have := List.filter_eq_nil_iff.mp hreq n hn
              simp at this
              exact this
            have hturl : env.truthy "DATABASE_URL" = true := htu _ (by decide)
            have htau : env.truthy "NEXTAUTH_URL" = true := htu _ (by decide)
            have htas : env.truthy "NEXTAUTH_SECRET" = true := htu _ (by decide)
            have htsu : env.truthy "SUPABASE_URL" = true := htu _ (by decide)
            have htsk : env.truthy "SUPABASE_ANON_KEY" = true := htu _ (by decide)
            refine ⟨hdet, ?_, ?_, ?_, ?_⟩
            · dsimp only
              rw [hurl]
              exact truthy_ne env _ hturl
            · exact truthy_ne env _ htau
            · exact truthy_ne env _ htas
            · refine ⟨{ url := env.getStr "SUPABASE_URL", anonKey := env.getStr "SUPABASE_ANON_KEY",
                        serviceRoleKey := env.get? "SUPABASE_SERVICE_ROLE_KEY" }, ?_, ?_, ?_⟩
              · dsimp only
                rw [if_pos ⟨hdet, htsu⟩]
              · exact truthy_ne env _ htsu
              · exact truthy_ne env _ htsk

/-- C3 witness: the amended invariant holds at the concrete production
serving environment `envProdOk`, whose load succeeds with `cfgProdOk`. -/
theorem c3_amended_witness :
    ((cfgProdOk.databaseProvider = "sqlite" ∧ strStartsWith cfgProdOk.databaseUrl "file:" = true) ∨
     (cfgProdOk.databaseProvider = "postgresql" ∧ strStartsWith cfgProdOk.databaseUrl "postgres" = true)) ∧
    (cfgProdOk.nodeEnv = Environment.production ∧
      cfgProdOk.databaseUrl ≠ "" ∧ cfgProdOk.nextAuthUrl ≠ "" ∧ cfgProdOk.nextAuthSecret ≠ "" ∧
      ∃ sb, cfgProdOk.supabaseConfig = some sb ∧ sb.url ≠ "" ∧ sb.anonKey ≠ "") := by
  have h := c3_amended envProdOk cfgProdOk (by decide)
  exact ⟨h.1, h.2 (by decide) (by decide)⟩
